/-
Verification of the kurlyro attendance-collection engine against its
natural-language specification.

The repository has two Python variants of the same engine:
  - src/commute_end.py : class KurlyDataCollector (paginated parallel fetch),
    process_data (8-column rows via dict.get defaults), update_spreadsheet
    (clear A2:H1000 then write, guarded on non-empty data), main (two dates
    processed via a thread pool with a per-date try/except).
  - src/checkout.py : getdata (login per call), process_data (7-column rows
    for workPart == 'IB' records, reversed), update_spreadsheet (early return
    on empty data, clear A2:G1000 then write), run (sequential today-then-
    yesterday under one try), and an infinite __main__ loop with a catch-all
    and a 300 second sleep.

Python values flowing through these functions are JSON-decoded: strings,
null, booleans.  We embed them as `JVal`, records as association lists, and
the fallible Python operations (dict indexing, str.replace on a possibly-null
value, HTTP calls) as `Except`-valued functions.  Thread-pool completion
nondeterminism is made explicit: `as_completed` is modelled by a completion
order, a list of page indices (a permutation of the submitted pages).
-/
import Mathlib

deriving instance DecidableEq for Except

/-- A JSON scalar as it appears in the decoded API payloads: a string,
`null`, or a boolean.  Python `None` is `jnull`. -/
inductive JVal where
  | jnull : JVal
  | jstr (s : String) : JVal
  | jbool (b : Bool) : JVal
deriving DecidableEq, Repr

/-- A raw API record: a JSON object, embedded as an association list from
field name to value.  A field is absent iff its key does not occur. -/
def RawRecord : Type := List (String × JVal)

/-- Python `dict.get(k, d)`: the stored value when the key is present (even
when that value is null), otherwise the default `d`. -/
def pyGet (r : RawRecord) (k : String) (d : JVal) : JVal :=
  match r.find? (fun p => p.1 == k) with
  | some p => p.2
  | none => d

/-- Python `dict[k]`: the stored value, or a `KeyError` when absent. -/
def pyIndex (r : RawRecord) (k : String) : Except String JVal :=
  match r.find? (fun p => p.1 == k) with
  | some p => Except.ok p.2
  | none => Except.error ("KeyError: " ++ k)

/-- Python `v.replace(' ', '')`: defined on strings — since the pattern is a
single character and the replacement empty, it is exactly the string with
every space removed — and an `AttributeError` when `v` is null (or any
non-string). -/
def pyReplaceSpaces (v : JVal) : Except String String :=
  match v with
  | JVal.jstr s => Except.ok (String.mk (s.data.filter (fun ch => ch ≠ ' ')))
  | _ => Except.error "AttributeError: replace on non-string"

namespace CommuteEnd

/-- The eight output fields of `process_data` in src/commute_end.py, in
source order. -/
def schemaKeys : List String :=
  ["name", "teamName", "userId", "centerShiftHourType", "startWorkDateTime",
   "endWorkDateTime", "overWorkMinuteTime", "overWorkStartMinuteTime"]

/-- The per-record body of `process_data` (src/commute_end.py lines 151-160):
eight `item.get(field, '')` accesses in a fixed order. -/
def processedItem (item : RawRecord) : List JVal :=
  [ pyGet item "name" (JVal.jstr ""),
    pyGet item "teamName" (JVal.jstr ""),
    pyGet item "userId" (JVal.jstr ""),
    pyGet item "centerShiftHourType" (JVal.jstr ""),
    pyGet item "startWorkDateTime" (JVal.jstr ""),
    pyGet item "endWorkDateTime" (JVal.jstr ""),
    pyGet item "overWorkMinuteTime" (JVal.jstr ""),
    pyGet item "overWorkStartMinuteTime" (JVal.jstr "") ]

/-- `process_data` of src/commute_end.py: one row per input record, in input
order.  Total: no operation in the body can raise. -/
def process_data (response : List RawRecord) : List (List JVal) :=
  response.map processedItem

end CommuteEnd

namespace Checkout

/-- The row built for one `workPart == 'IB'` record by `process_data` in
src/checkout.py (lines 85-94): contract-type label, then five
space-stripped string fields, then `checkOutTime` taken verbatim.  Any
missing key raises `KeyError`; `.replace` on a null value raises
`AttributeError`. -/
def buildRow (i : RawRecord) : Except String (List JVal) := do
  let ct ← pyIndex i "contractType"
  let empType := if ct = JVal.jstr "CONTRACT" then "상용직" else "일용직"
  let userId ← pyReplaceSpaces (← pyIndex i "userId")
  let nm ← pyReplaceSpaces (← pyIndex i "name")
  let wproc ← pyReplaceSpaces (← pyIndex i "workProcess")
  let wprocDetail ← pyReplaceSpaces (← pyIndex i "workProcessDetail")
  let checkIn ← pyReplaceSpaces (← pyIndex i "checkInTime")
  let checkOut ← pyIndex i "checkOutTime"
  pure [JVal.jstr empType, JVal.jstr userId, JVal.jstr nm, JVal.jstr wproc,
        JVal.jstr wprocDetail, JVal.jstr checkIn, checkOut]

/-- One iteration of the `for i in response` loop of `process_data` in
src/checkout.py: looks up `i['workPart']` (a `KeyError` when absent), builds
a row when it equals `'IB'`, skips the record otherwise. -/
def processOne (i : RawRecord) : Except String (Option (List JVal)) :=
  match pyIndex i "workPart" with
  | Except.error e => Except.error e
  | Except.ok wp =>
    if wp = JVal.jstr "IB" then (buildRow i).map some else Except.ok none

/-- The whole `for` loop of `process_data` in src/checkout.py: rows of the
matching records in order of appearance, stopping at the first raising
record. -/
def collectRows : List RawRecord → Except String (List (List JVal))
  | [] => Except.ok []
  | i :: rest =>
    match processOne i with
    | Except.error e => Except.error e
    | Except.ok r =>
      match collectRows rest with
      | Except.error e => Except.error e
      | Except.ok tail =>
        Except.ok (match r with
                   | some row => row :: tail
                   | none => tail)

/-- `process_data` of src/checkout.py: collect the `IB` rows in input order,
then `IB_datas.reverse()`. -/
def process_data (response : List RawRecord) : Except String (List (List JVal)) :=
  (collectRows response).map List.reverse

/-- The record filter applied by `process_data` in src/checkout.py: the
`workPart` field is present and equals `'IB'`. -/
def isIB (i : RawRecord) : Bool :=
  match pyIndex i "workPart" with
  | Except.ok v => v == JVal.jstr "IB"
  | Except.error _ => false

end Checkout

namespace Retry

/-
Model of the HTTP transport retry behaviour installed in
`KurlyDataCollector.__init__` (src/commute_end.py lines 20-27):

    Retry(total=3, backoff_factor=0.5, status_forcelist=[500, 502, 503, 504])

The retry engine itself is the urllib3 `Retry` class, an external dependency
of the repository; we embed its documented semantics, parameterised by the
configuration found in the source: `total` counts retries beyond the initial
request, only statuses in `status_forcelist` are retried, and the sleep
before the k-th retry is `backoff_factor * 2 ^ (k - 1)` for k ≥ 2 and 0
before the first retry.
-/

/-- The retried status codes configured in `KurlyDataCollector.__init__`. -/
def status_forcelist : List Nat := [500, 502, 503, 504]

/-- The configured number of retries beyond the initial attempt. -/
def retry_total : Nat := 3

/-- The configured backoff factor (0.5 time units). -/
def backoff_factor : ℚ := 1 / 2

/-- urllib3 `Retry.get_backoff_time` after `consecutive` consecutive
failures: zero before the first retry, `backoff_factor * 2 ^ (consecutive
- 1)` afterwards. -/
def get_backoff_time (consecutive : Nat) : ℚ :=
  if consecutive ≤ 1 then 0 else backoff_factor * 2 ^ (consecutive - 1)

/-- Outcome of one transport-level request sequence: how many requests were
issued, the sleeps taken between them, and the final response status or a
`MaxRetryError`. -/
structure RetryRun where
  attempts : Nat
  sleeps : List ℚ
  result : Except String Nat
deriving DecidableEq, Repr

/-- The retry loop: `responses i` is the status returned by the i-th request
(0-indexed).  `remaining` is the remaining retry budget.  A status outside
the forcelist ends the loop with that response; a forcelist status consumes
one retry (sleeping the backoff first) or, with the budget exhausted, fails
with `MaxRetryError`. -/
def retryGo (responses : Nat → Nat) : Nat → Nat → List ℚ → RetryRun
  | 0, i, acc =>
      if responses i ∈ status_forcelist then
        { attempts := i + 1, sleeps := acc, result := Except.error "MaxRetryError" }
      else
        { attempts := i + 1, sleeps := acc, result := Except.ok (responses i) }
  | r + 1, i, acc =>
      if responses i ∈ status_forcelist then
        retryGo responses r (i + 1) (acc ++ [get_backoff_time (i + 1)])
      else
        { attempts := i + 1, sleeps := acc, result := Except.ok (responses i) }

/-- One `session.get` through the adapter mounted in
`KurlyDataCollector.__init__`: the retry loop started with the configured
budget. -/
def sessionGet (responses : Nat → Nat) : RetryRun :=
  retryGo responses retry_total 0 []

/-- `response.raise_for_status()`: an `HTTPError` on any 4xx/5xx status. -/
def raise_for_status (status : Nat) : Except String Nat :=
  if 400 ≤ status then Except.error ("HTTPError " ++ toString status)
  else Except.ok status

/-- A whole page fetch at the transport level: the retried `session.get`
followed by `raise_for_status` on the final response. -/
def fetchOnce (responses : Nat → Nat) : RetryRun :=
  let run := sessionGet responses
  { run with result := run.result.bind raise_for_status }

end Retry

namespace CommuteEnd

/-- An observable log record emitted through `logger` or an update to the
collector state. -/
inductive LogEvent where
  | errorLog (msg : String) : LogEvent
deriving DecidableEq, Repr

/-- The mutable state of a `KurlyDataCollector`: the bearer token, `None`
until the first successful login. -/
structure CollectorState where
  token : Option String
deriving DecidableEq, Repr

/-- Python truthiness of `self.token` as used in `if not self.token`. -/
def tokenFalsy (t : Option String) : Bool :=
  t = none || t = some ""

/-- The environment one `get_data(date)` call runs against: the outcome of
the login POST (an HTTP error status, or a token), the outcome of the first
page GET (an HTTP error status, or content plus `totalPages`), the outcome
of each further page GET (indexed by page number), and the order in which
`as_completed` yields the submitted pages 2..totalPages. -/
structure Env (α : Type) where
  loginResult : Except Nat String
  firstPage : Except Nat (List α × Nat)
  pageResult : Nat → Except String (List α)
  completionOrder : List Nat

/-- Result of one `get_data` call: the collector state after the call, the
returned records or the raised exception, and the logs emitted. -/
structure GetDataResult (α : Type) where
  state : CollectorState
  result : Except String (List α)
  logs : List LogEvent

/-- `KurlyDataCollector.login` (src/commute_end.py lines 32-43): POST the
credentials; `raise_for_status` on failure leaves the token unchanged; on
success the token is stored (and attached to the session headers). -/
def login (env : Env α) : Except String String :=
  match env.loginResult with
  | Except.error status => Except.error ("HTTPError " ++ toString status)
  | Except.ok tok => Except.ok tok

/-- `KurlyDataCollector.get_page_data` (src/commute_end.py lines 45-53):
one page GET; any exception is caught, logged, and an empty page is
returned. -/
def get_page_data (env : Env α) (page : Nat) : List α × List LogEvent :=
  match env.pageResult page with
  | Except.ok content => (content, [])
  | Except.error e =>
      ([], [LogEvent.errorLog ("Error fetching page " ++ toString page ++ ": " ++ e)])

/-- The body of `KurlyDataCollector.get_data` after authentication
(src/commute_end.py lines 61-98): the first page GET determines
`totalPages` and seeds `result`; when `totalPages > 1`, pages
2..totalPages are fetched on the worker pool and `result` is extended in
`as_completed` (completion) order. -/
def get_data_authed (env : Env α) (s : CollectorState) : GetDataResult α :=
  match env.firstPage with
  | Except.error status =>
      { state := s,
        result := Except.error ("HTTPError " ++ toString status),
        logs := [LogEvent.errorLog ("Error in get_data: HTTPError " ++ toString status)] }
  | Except.ok (content, totalPages) =>
      if 1 < totalPages then
        let fetched := env.completionOrder.map (fun p => get_page_data env p)
        { state := s,
          result := Except.ok (content ++ (fetched.map Prod.fst).flatten),
          logs := (fetched.map Prod.snd).flatten }
      else
        { state := s, result := Except.ok content, logs := [] }

/-- `KurlyDataCollector.get_data` (src/commute_end.py lines 55-102): log in
first when no token is stored (a login failure is logged and re-raised,
leaving the token unchanged); then run the paginated collection. -/
def get_data (env : Env α) (s : CollectorState) : GetDataResult α :=
  if tokenFalsy s.token then
    match login env with
    | Except.error e =>
        { state := s,
          result := Except.error e,
          logs := [LogEvent.errorLog ("Error in get_data: " ++ e)] }
    | Except.ok tok => get_data_authed env { token := some tok }
  else
    get_data_authed env s

/-- The ascending-page-order concatenation of all pages the spec requires:
page 1's records followed by pages 2..totalPages in index order.  This is
the specification-side description, to be compared with `get_data`. -/
def ascendingMerge (content : List α) (env : Env α) (totalPages : Nat) : List α :=
  content ++ ((List.range' 2 (totalPages - 1)).map
    (fun p => (get_page_data env p).1)).flatten

end CommuteEnd

/-- A worksheet of the sink, addressed by 1-indexed (row, column); every
cell holds a string. -/
def Sheet : Type := Nat → Nat → String

/-- An observable operation performed against the sink. -/
inductive SinkOp where
  | cleared (range : String) : SinkOp
  | wrote (origin : String) (nrows : Nat) : SinkOp
  | warned (msg : String) : SinkOp
deriving DecidableEq, Repr

/-- `worksheet.batch_clear([...])` over the rectangle of rows
`rmin..rmax` and columns `cmin..cmax`: those cells become empty strings,
every other cell is untouched. -/
def batch_clear (s : Sheet) (rmin rmax cmin cmax : Nat) : Sheet :=
  fun r c =>
    if rmin ≤ r ∧ r ≤ rmax ∧ cmin ≤ c ∧ c ≤ cmax then "" else s r c

/-- `worksheet.update(origin, data)` with origin cell `(r0, c0)`: the
rectangle covered by `data` is overwritten with `data`'s cells, every other
cell is untouched. -/
def sheetWrite (s : Sheet) (r0 c0 : Nat) (data : List (List String)) : Sheet :=
  fun r c =>
    if r0 ≤ r ∧ r - r0 < data.length ∧ c0 ≤ c ∧ c - c0 < (data.getD (r - r0) []).length
    then (data.getD (r - r0) []).getD (c - c0) ""
    else s r c

namespace CommuteEnd

/-- `update_spreadsheet` of src/commute_end.py (lines 128-144), its effect
on the target worksheet: when `data` is non-empty, `batch_clear(["A2:H1000"])`
(rows 2..1000, columns 1..8) then `update('A2', data)`; when `data` is
empty, neither happens.  Credential loading and workbook opening are
abstracted as succeeding; they touch no cell either way. -/
def update_spreadsheet (s : Sheet) (data : List (List String)) :
    Sheet × List SinkOp :=
  if data = [] then (s, [])
  else
    (sheetWrite (batch_clear s 2 1000 1 8) 2 1 data,
     [SinkOp.cleared "A2:H1000", SinkOp.wrote "A2" data.length])

end CommuteEnd

namespace Checkout

/-- `update_spreadsheet` of src/checkout.py (lines 28-49), its effect on the
target worksheet: on empty `data` it logs a warning and returns before
touching the sheet; otherwise `batch_clear(["A2:G1000"])` (rows 2..1000,
columns 1..7) then `update('A2', data)`. -/
def update_spreadsheet (s : Sheet) (data : List (List String)) :
    Sheet × List SinkOp :=
  if data = [] then (s, [SinkOp.warned "No data to update"])
  else
    (sheetWrite (batch_clear s 2 1000 1 7) 2 1 data,
     [SinkOp.cleared "A2:G1000", SinkOp.wrote "A2" data.length])

end Checkout

/-- An observable event of one scheduler iteration or of the per-date main
bodies: an error logged, or a named worksheet updated. -/
inductive MainEvent where
  | errorLog (msg : String) : MainEvent
  | updated (sheetName : String) : MainEvent
deriving DecidableEq, Repr

namespace CommuteEnd

/-- The per-future body of `main` in src/commute_end.py (lines 187-195):
`future.result()` re-raises the date's collection failure; otherwise the
records are transformed and, when non-empty, written to the date's sheet.
Any exception in the block (collection or sink) is caught and logged for
that date only.  `fetch` is the outcome of `collector.get_data(date)` and
`sink` the outcome of the `update_spreadsheet` call. -/
def mainDateStep (fetch : Except String (List RawRecord))
    (sink : Except String Unit) (sheetName date : String) : List MainEvent :=
  match fetch with
  | Except.error e => [MainEvent.errorLog ("Error processing " ++ date ++ ": " ++ e)]
  | Except.ok data =>
      let processed := process_data data
      if processed = [] then []
      else
        match sink with
        | Except.ok _ => [MainEvent.updated sheetName]
        | Except.error e =>
            [MainEvent.errorLog ("Error processing " ++ date ++ ": " ++ e)]

/-- The two-date section of `main` in src/commute_end.py (lines 181-195):
both dates are submitted to the pool and handled as futures complete;
`todayFirst` is the completion order of the two futures. -/
def mainTwoDates (todayFirst : Bool)
    (fetchToday fetchYesterday : Except String (List RawRecord))
    (sinkToday sinkYesterday : Except String Unit)
    (todayDate yesterdayDate : String) : List MainEvent :=
  let stepToday := mainDateStep fetchToday sinkToday "today_kurlyro" todayDate
  let stepYesterday :=
    mainDateStep fetchYesterday sinkYesterday "yesterday_kurlyro" yesterdayDate
  if todayFirst then stepToday ++ stepYesterday else stepYesterday ++ stepToday

end CommuteEnd

namespace Checkout

/-- `run` of src/checkout.py (lines 105-125): the whole body sits under one
`try`.  Today's data is fetched, transformed and (when non-empty) written;
only then is yesterday's.  The first exception anywhere aborts the rest of
the body, is logged, and re-raised.  Returns the events emitted before
control left `run`, and the outcome. -/
def run (fetchToday fetchYesterday : Except String (List RawRecord))
    (sinkToday sinkYesterday : Except String Unit) :
    List MainEvent × Except String Unit :=
  match fetchToday with
  | Except.error e =>
      ([MainEvent.errorLog ("Error in run function: " ++ e)], Except.error e)
  | Except.ok dataT =>
    match process_data dataT with
    | Except.error e =>
        ([MainEvent.errorLog ("Error in run function: " ++ e)], Except.error e)
    | Except.ok rowsT =>
      let todayEvents := if 0 < rowsT.length then [MainEvent.updated "today_kurlyro"] else []
      match (if 0 < rowsT.length then sinkToday else Except.ok ()) with
      | Except.error e =>
          ([MainEvent.errorLog ("Error in run function: " ++ e)], Except.error e)
      | Except.ok _ =>
        match fetchYesterday with
        | Except.error e =>
            (todayEvents ++ [MainEvent.errorLog ("Error in run function: " ++ e)],
             Except.error e)
        | Except.ok dataY =>
          match process_data dataY with
          | Except.error e =>
              (todayEvents ++ [MainEvent.errorLog ("Error in run function: " ++ e)],
               Except.error e)
          | Except.ok rowsY =>
            match (if 0 < rowsY.length then sinkYesterday else Except.ok ()) with
            | Except.error e =>
                (todayEvents ++ [MainEvent.errorLog ("Error in run function: " ++ e)],
                 Except.error e)
            | Except.ok _ =>
                (todayEvents ++
                  (if 0 < rowsY.length then [MainEvent.updated "yesterday_kurlyro"] else []),
                 Except.ok ())

/-- An observable event of the `__main__` loop of src/checkout.py. -/
inductive SchedEvent where
  | cycleRan : SchedEvent
  | errorLogged (msg : String) : SchedEvent
  | sleep (seconds : Nat) : SchedEvent
deriving DecidableEq, Repr

/-- One iteration of the `while True` loop of src/checkout.py (lines
129-135): `run()` under `try`, any exception caught and logged, then the
wait log and `time.sleep(300)`.  Every outcome yields `continues`: the
`except` clause has no re-raise and no exit. -/
def loopIteration (outcome : Except String Unit) : List SchedEvent :=
  match outcome with
  | Except.ok _ => [SchedEvent.cycleRan, SchedEvent.sleep 300]
  | Except.error e =>
      [SchedEvent.cycleRan, SchedEvent.errorLogged ("Error in main loop: " ++ e),
       SchedEvent.sleep 300]

/-- The `__main__` loop of src/checkout.py run against a finite prefix of
cycle outcomes: each outcome is handled by `loopIteration` and the loop
unconditionally proceeds to the next. -/
def mainLoop : List (Except String Unit) → List SchedEvent
  | [] => []
  | o :: rest => loopIteration o ++ mainLoop rest

end Checkout

/-
Concrete fixtures used to instantiate the theorems below on explicit
inputs.
-/

/-- A record whose every schema field is present but null. -/
def allNullRecord : RawRecord :=
  CommuteEnd.schemaKeys.map (fun k => (k, JVal.jnull))

/-- A record carrying only `workPart = 'IB'` (every other field absent). -/
def ibOnlyRecord : RawRecord :=
  [("workPart", JVal.jstr "IB")]

/-- A fully-populated `IB` record for the checkout transformer. -/
def ibFullRecord : RawRecord :=
  [("workPart", JVal.jstr "IB"), ("contractType", JVal.jstr "CONTRACT"),
   ("userId", JVal.jstr "u1"), ("name", JVal.jstr "n1"),
   ("workProcess", JVal.jstr "p1"), ("workProcessDetail", JVal.jstr "d1"),
   ("checkInTime", JVal.jstr "09:00"), ("checkOutTime", JVal.jstr "18:00")]

/-- A second fully-populated `IB` record, distinguishable from the first. -/
def ibFullRecord2 : RawRecord :=
  [("workPart", JVal.jstr "IB"), ("contractType", JVal.jstr "DAILY"),
   ("userId", JVal.jstr "u2"), ("name", JVal.jstr "n2"),
   ("workProcess", JVal.jstr "p2"), ("workProcessDetail", JVal.jstr "d2"),
   ("checkInTime", JVal.jstr "10:00"), ("checkOutTime", JVal.jstr "19:00")]

/-- A record filtered out by the checkout transformer. -/
def obRecord : RawRecord :=
  [("workPart", JVal.jstr "OB"), ("userId", JVal.jstr "u3")]

/-- A three-record response: two `IB` records around one `OB` record. -/
def respC10 : List RawRecord :=
  [ibFullRecord, obRecord, ibFullRecord2]

/-- The rows the checkout transformer produces for `respC10`: the rows of
the two `IB` records in reverse order of appearance. -/
def rowsC10 : List (List JVal) :=
  [[JVal.jstr "일용직", JVal.jstr "u2", JVal.jstr "n2", JVal.jstr "p2",
    JVal.jstr "d2", JVal.jstr "10:00", JVal.jstr "19:00"],
   [JVal.jstr "상용직", JVal.jstr "u1", JVal.jstr "n1", JVal.jstr "p1",
    JVal.jstr "d1", JVal.jstr "09:00", JVal.jstr "18:00"]]

/-- A collector environment for a 3-page collection where page 3 completes
before page 2 and every fetch succeeds. -/
def envC1 : CommuteEnd.Env Nat :=
  { loginResult := Except.ok "tok",
    firstPage := Except.ok ([1], 3),
    pageResult := fun p => Except.ok [p],
    completionOrder := [3, 2] }

/-- A collector environment where page 2 fails terminally and page 3
succeeds. -/
def envC8 : CommuteEnd.Env Nat :=
  { loginResult := Except.ok "tok",
    firstPage := Except.ok ([10], 3),
    pageResult := fun p => if p = 2 then Except.error "boom" else Except.ok [p],
    completionOrder := [3, 2] }

/-- A collector environment whose data request returns 401 while a login,
were one attempted, would succeed with a fresh token. -/
def envC6a : CommuteEnd.Env Nat :=
  { loginResult := Except.ok "newtok",
    firstPage := Except.error 401,
    pageResult := fun _ => Except.ok [],
    completionOrder := [] }

/-- A collector environment whose data request succeeds but whose login
endpoint is down: a call that succeeds against it proves no login was
attempted. -/
def envC6b : CommuteEnd.Env Nat :=
  { loginResult := Except.error 500,
    firstPage := Except.ok ([7], 1),
    pageResult := fun _ => Except.ok [],
    completionOrder := [] }

/-- A collector that already holds a token. -/
def sOld : CommuteEnd.CollectorState := { token := some "oldtok" }

/-- A collector that holds the token `envC1`'s login would return. -/
def sTok : CommuteEnd.CollectorState := { token := some "tok" }

/-- A collector with no token yet. -/
def sFresh : CommuteEnd.CollectorState := { token := none }

/-- A worksheet with a distinct recognisable value in every cell. -/
def sheetX : Sheet := fun r c => toString r ++ "," ++ toString c

/-
Theorems.
-/

/-- The paginated-fetch body never writes the collector state: every branch
of `get_data_authed` returns the state it was given. -/
theorem get_data_authed_state {α : Type} (env : CommuteEnd.Env α)
    (s : CommuteEnd.CollectorState) :
    (CommuteEnd.get_data_authed env s).state = s := by
  unfold CommuteEnd.get_data_authed
  rcases h : env.firstPage with st | ⟨content, totalPages⟩
  · rfl
  · by_cases hN : 1 < totalPages <;> simp [hN]

/-- Claim C1 (counterexample): with three pages holding records [1], [2],
[3] and the achievable completion order in which page 3 finishes before
page 2, `get_data` returns [1, 3, 2] — not the ascending-page-order
concatenation [1, 2, 3]. -/
theorem c1_counterexample :
    envC1.completionOrder.Perm (List.range' 2 2) ∧
    (CommuteEnd.get_data envC1 sTok).result = Except.ok [1, 3, 2] ∧
    (CommuteEnd.get_data envC1 sTok).result
      ≠ Except.ok (CommuteEnd.ascendingMerge [1] envC1 3) :=
  ⟨by decide, by decide, by decide⟩

/-- Claim C1 (amended): `get_data` returns page 1's records followed by the
remaining pages' record blocks in completion order (each page's internal
order preserved), and that merged sequence is a permutation of the
ascending-page-index concatenation the spec asks for — but equals it only
when the completion order happens to be ascending. -/
theorem c1_collect_completion_order {α : Type} (env : CommuteEnd.Env α)
    (s : CommuteEnd.CollectorState) (content : List α) (totalPages : Nat)
    (hfirst : env.firstPage = Except.ok (content, totalPages))
    (htok : CommuteEnd.tokenFalsy s.token = false)
    (horder : env.completionOrder.Perm (List.range' 2 (totalPages - 1))) :
    (CommuteEnd.get_data env s).result
      = Except.ok (content ++
          (env.completionOrder.map
            (fun p => (CommuteEnd.get_page_data env p).1)).flatten) ∧
    (content ++
      (env.completionOrder.map
        (fun p => (CommuteEnd.get_page_data env p).1)).flatten).Perm
      (CommuteEnd.ascendingMerge content env totalPages) := by
  constructor
  · unfold CommuteEnd.get_data
    rw [htok]
    unfold CommuteEnd.get_data_authed
    rw [hfirst]
    by_cases hN : 1 < totalPages
    · simp only [hN, if_true, List.map_map]
      rfl
    · have h0 : totalPages - 1 = 0 := by omega
      have hnil : env.completionOrder = [] := by
        have := horder
        rw [h0] at this
        exact this.eq_nil
      simp [hN, hnil]
  · unfold CommuteEnd.ascendingMerge
    exact List.Perm.append_left content
      ((horder.map (fun p => (CommuteEnd.get_page_data env p).1)).flatten)

/-- Witness for C1 (amended) at the concrete three-page environment. -/
theorem c1_witness :
    (CommuteEnd.get_data envC1 sTok).result
      = Except.ok ([1] ++
          (envC1.completionOrder.map
            (fun p => (CommuteEnd.get_page_data envC1 p).1)).flatten) ∧
    ([1] ++
      (envC1.completionOrder.map
        (fun p => (CommuteEnd.get_page_data envC1 p).1)).flatten).Perm
      (CommuteEnd.ascendingMerge [1] envC1 3) :=
  c1_collect_completion_order envC1 sTok [1] 3 rfl (by decide) (by decide)

/-- Claim C2 (counterexample): a record whose every schema field is present
but null does not map to a row of all '' cells — `dict.get(k, '')` returns
the stored null, not the default; and the checkout-variant transformer does
have a failure path: an `IB` record missing `contractType` raises
`KeyError` instead of producing a defaulted row. -/
theorem c2_counterexample :
    CommuteEnd.process_data [allNullRecord] ≠ [List.replicate 8 (JVal.jstr "")] ∧
    Checkout.process_data [ibOnlyRecord] = Except.error "KeyError: contractType" :=
  ⟨by decide, by decide⟩

/-- Claim C2 (amended): the commute_end transformer is total (one output
row per input record, no failure path) and every row has the fixed schema
length 8; a cell whose source field is missing equals the default '' — but
a field that is present with a null value is passed through as null. -/
theorem c2_row_defaults (response : List RawRecord) (item : RawRecord)
    (j : Nat) (hj : j < 8)
    (hmiss : item.find? (fun p => p.1 == CommuteEnd.schemaKeys.getD j "") = none) :
    (CommuteEnd.process_data response).length = response.length ∧
    (CommuteEnd.processedItem item).length = 8 ∧
    (CommuteEnd.processedItem item).getD j JVal.jnull = JVal.jstr "" := by
  refine ⟨by simp [CommuteEnd.process_data], rfl, ?_⟩
  have hpy : ∀ k : String, item.find? (fun p => p.1 == k) = none →
      pyGet item k (JVal.jstr "") = JVal.jstr "" := by
    intro k hk
    unfold pyGet
    rw [hk]
  interval_cases j <;>
    (simp only [CommuteEnd.schemaKeys, List.getD_cons_zero, List.getD_cons_succ] at hmiss;
     simp only [CommuteEnd.processedItem, List.getD_cons_zero, List.getD_cons_succ];
     exact hpy _ hmiss)

/-- Witness for C2 (amended): the empty record (every field missing) has
its first cell defaulted to ''. -/
theorem c2_witness :
    (CommuteEnd.process_data [([] : RawRecord)]).length = 1 ∧
    (CommuteEnd.processedItem ([] : RawRecord)).length = 8 ∧
    (CommuteEnd.processedItem ([] : RawRecord)).getD 0 JVal.jnull = JVal.jstr "" :=
  c2_row_defaults [([] : RawRecord)] ([] : RawRecord) 0 (by decide) rfl

/-- Claim C3 (counterexample): in the checkout variant, when the today
sub-cycle fails (e.g. its login is rejected) while the yesterday fetch
would have succeeded with writable rows, `run` stops at the logged error:
no yesterday update happens — the sibling sub-cycle does not complete. -/
theorem c3_counterexample :
    (Checkout.run (Except.error "AuthError: login rejected")
        (Except.ok respC10) (Except.ok ()) (Except.ok ())).1
      = [MainEvent.errorLog ("Error in run function: AuthError: login rejected")] ∧
    MainEvent.updated "yesterday_kurlyro" ∉
      (Checkout.run (Except.error "AuthError: login rejected")
        (Except.ok respC10) (Except.ok ()) (Except.ok ())).1 ∧
    Checkout.process_data respC10 = Except.ok rowsC10 ∧ 0 < rowsC10.length :=
  ⟨rfl, by decide, by decide, by decide⟩

/-- Claim C3 (amended): in the commute_end variant the claim holds — each
date's failure is caught and logged inside its own future handler, and the
sibling date's sub-cycle completes (in either completion order); in the
checkout variant the two sub-cycles run sequentially under one try block,
so a failure in the today sub-cycle aborts `run` before the yesterday
sub-cycle starts and only the run-level error is observable. -/
theorem c3_per_date_isolation (todayFirst : Bool) (e td yd : String)
    (dataY : List RawRecord) (hne : CommuteEnd.process_data dataY ≠ []) :
    MainEvent.updated "yesterday_kurlyro" ∈
      CommuteEnd.mainTwoDates todayFirst (Except.error e) (Except.ok dataY)
        (Except.ok ()) (Except.ok ()) td yd ∧
    MainEvent.errorLog ("Error processing " ++ td ++ ": " ++ e) ∈
      CommuteEnd.mainTwoDates todayFirst (Except.error e) (Except.ok dataY)
        (Except.ok ()) (Except.ok ()) td yd ∧
    MainEvent.updated "today_kurlyro" ∈
      CommuteEnd.mainTwoDates todayFirst (Except.ok dataY) (Except.error e)
        (Except.ok ()) (Except.ok ()) td yd ∧
    (Checkout.run (Except.error e) (Except.ok dataY)
        (Except.ok ()) (Except.ok ())).1
      = [MainEvent.errorLog ("Error in run function: " ++ e)] := by
  refine ⟨?_, ?_, ?_, rfl⟩ <;>
    cases todayFirst <;>
      simp [CommuteEnd.mainTwoDates, CommuteEnd.mainDateStep, hne]

/-- Witness for C3 (amended) at a concrete failing today sub-cycle and a
concrete non-empty yesterday data set. -/
theorem c3_witness :
    MainEvent.updated "yesterday_kurlyro" ∈
      CommuteEnd.mainTwoDates true (Except.error "AuthError") (Except.ok respC10)
        (Except.ok ()) (Except.ok ()) "2025-01-02" "2025-01-01" ∧
    MainEvent.errorLog ("Error processing " ++ "2025-01-02" ++ ": " ++ "AuthError") ∈
      CommuteEnd.mainTwoDates true (Except.error "AuthError") (Except.ok respC10)
        (Except.ok ()) (Except.ok ()) "2025-01-02" "2025-01-01" ∧
    MainEvent.updated "today_kurlyro" ∈
      CommuteEnd.mainTwoDates true (Except.ok respC10) (Except.error "AuthError")
        (Except.ok ()) (Except.ok ()) "2025-01-02" "2025-01-01" ∧
    (Checkout.run (Except.error "AuthError") (Except.ok respC10)
        (Except.ok ()) (Except.ok ())).1
      = [MainEvent.errorLog ("Error in run function: " ++ "AuthError")] :=
  c3_per_date_isolation true "AuthError" "2025-01-02" "2025-01-01" respC10 (by decide)

/-- Claim C4 (counterexample): the empty-row replace is not a logged no-op
in the commute_end variant — at a concrete target it emits no observable
operation at all, warning included, whereas the checkout variant logs its
"No data to update" warning. -/
theorem c4_counterexample :
    (CommuteEnd.update_spreadsheet sheetX []).2 = [] ∧
    (Checkout.update_spreadsheet sheetX []).2
      = [SinkOp.warned "No data to update"] ∧
    ([] : List SinkOp) ≠ [SinkOp.warned "No data to update"] :=
  ⟨rfl, rfl, by decide⟩

/-- Claim C4 (amended): synchronizing an empty row sequence performs no
clear and no write in either variant — every cell of the target keeps its
prior value; the checkout variant logs the skip as a warning, while the
commute_end variant skips silently, emitting no operation. -/
theorem c4_empty_rows_untouched (s : Sheet) :
    CommuteEnd.update_spreadsheet s [] = (s, []) ∧
    Checkout.update_spreadsheet s [] = (s, [SinkOp.warned "No data to update"]) := by
  constructor <;> rfl

/-- Unfolding step of the retry loop: budget exhausted on a retryable
status fails with `MaxRetryError`. -/
theorem retryGo_zero_fail (responses : Nat → Nat) (i : Nat) (acc : List ℚ)
    (h : responses i ∈ Retry.status_forcelist) :
    Retry.retryGo responses 0 i acc
      = { attempts := i + 1, sleeps := acc,
          result := Except.error "MaxRetryError" } := by
  simp only [Retry.retryGo]
  rw [if_pos h]

/-- Unfolding step of the retry loop: budget remaining on a retryable
status sleeps the backoff and retries. -/
theorem retryGo_succ_retry (responses : Nat → Nat) (r i : Nat) (acc : List ℚ)
    (h : responses i ∈ Retry.status_forcelist) :
    Retry.retryGo responses (r + 1) i acc
      = Retry.retryGo responses r (i + 1)
          (acc ++ [Retry.get_backoff_time (i + 1)]) := by
  simp only [Retry.retryGo]
  rw [if_pos h]

/-- Unfolding step of the retry loop: a non-retryable status ends the loop
with that response, whatever budget remains. -/
theorem retryGo_stop (responses : Nat → Nat) (r i : Nat) (acc : List ℚ)
    (h : responses i ∉ Retry.status_forcelist) :
    Retry.retryGo responses r i acc
      = { attempts := i + 1, sleeps := acc,
          result := Except.ok (responses i) } := by
  cases r <;> (simp only [Retry.retryGo]; rw [if_neg h])

/-- A fetch whose every response status is retryable issues exactly 4
requests (the initial one plus the 3 configured retries), sleeps 0, 1 and
2 time units before the retries, and fails with `MaxRetryError`. -/
theorem sessionGet_all_fail (responses : Nat → Nat)
    (hall : ∀ i, responses i ∈ Retry.status_forcelist) :
    Retry.sessionGet responses
      = { attempts := 4, sleeps := [0, 1, 2],
          result := Except.error "MaxRetryError" } := by
  unfold Retry.sessionGet Retry.retry_total
  rw [show (3 : Nat) = 2 + 1 from rfl, retryGo_succ_retry _ _ _ _ (hall 0),
      show (2 : Nat) = 1 + 1 from rfl, retryGo_succ_retry _ _ _ _ (hall 1),
      show (1 : Nat) = 0 + 1 from rfl, retryGo_succ_retry _ _ _ _ (hall 2),
      retryGo_zero_fail _ _ _ (hall 3)]
  norm_num [Retry.get_backoff_time, Retry.backoff_factor, Retry.RetryRun.mk.injEq]

/-- Claim C5 (counterexample): with the configured
`Retry(total=3, backoff_factor=0.5, status_forcelist=[500,502,503,504])`,
a fetch answered 500 on every attempt issues 4 requests — not the claimed
3 — and its first backoff sleep is 0: the first retry is immediate, so the
backoff does not start near 0.5; a 501 response, although 5xx, is not in
the forcelist and ends the fetch after a single attempt. -/
theorem c5_counterexample :
    (Retry.sessionGet (fun _ => 500)).attempts = 4 ∧
    (Retry.sessionGet (fun _ => 500)).attempts ≠ 3 ∧
    (Retry.sessionGet (fun _ => 500)).sleeps.head? = some 0 ∧
    (0 : ℚ) ≠ 1 / 2 ∧
    (Retry.fetchOnce (fun _ => 501)).attempts = 1 := by
  have h500 : (500 : Nat) ∈ Retry.status_forcelist := by decide
  have h := sessionGet_all_fail (fun _ => 500) (fun _ => h500)
  refine ⟨by rw [h], by rw [h]; decide, by rw [h]; rfl, by norm_num, by decide⟩

/-- Claim C5 (amended): a page fetch whose every attempt is answered with a
status in the configured forcelist (500, 502, 503, 504) fails with
`MaxRetryError` after exactly 4 attempts — the initial request plus the
configured budget of 3 retries — with backoff sleeps of 0, 1 and 2 time
units before the retries (factor-0.5 exponential growth, no sleep before
the first retry); a response outside the forcelist, in particular any 4xx,
is never retried: the fetch ends after 1 attempt and fails on
`raise_for_status`. -/
theorem c5_retry_budget (responses responsesBad : Nat → Nat)
    (hall : ∀ i, responses i ∈ Retry.status_forcelist)
    (hbad : responsesBad 0 ∉ Retry.status_forcelist)
    (hbad4 : 400 ≤ responsesBad 0) :
    Retry.sessionGet responses
      = { attempts := 4, sleeps := [0, 1, 2],
          result := Except.error "MaxRetryError" } ∧
    (Retry.fetchOnce responsesBad).attempts = 1 ∧
    (Retry.fetchOnce responsesBad).result
      = Except.error ("HTTPError " ++ toString (responsesBad 0)) := by
  have hstop : Retry.sessionGet responsesBad
      = { attempts := 1, sleeps := [], result := Except.ok (responsesBad 0) } :=
    retryGo_stop responsesBad Retry.retry_total 0 [] hbad
  refine ⟨sessionGet_all_fail responses hall, ?_, ?_⟩
  · unfold Retry.fetchOnce
    rw [hstop]
  · unfold Retry.fetchOnce
    rw [hstop]
    simp [Except.bind, Retry.raise_for_status, if_pos hbad4]

/-- Witness for C5 (amended): constant 500 responses and constant 404
responses. -/
theorem c5_witness :
    Retry.sessionGet (fun _ => 500)
      = { attempts := 4, sleeps := [0, 1, 2],
          result := Except.error "MaxRetryError" } ∧
    (Retry.fetchOnce (fun _ => 404)).attempts = 1 ∧
    (Retry.fetchOnce (fun _ => 404)).result
      = Except.error ("HTTPError " ++ toString (404 : Nat)) := by
  have h500 : (500 : Nat) ∈ Retry.status_forcelist := by decide
  have h404 : (404 : Nat) ∉ Retry.status_forcelist := by decide
  exact c5_retry_budget (fun _ => 500) (fun _ => 404)
    (fun _ => h500) h404 (by norm_num)

/-- Claim C6 (counterexample): a collector holding a stale token whose data
request is answered 401 fails that call but keeps the very same token —
nothing invalidates it — and the next call succeeds against an environment
whose login endpoint is down, proving no fresh login happens before
subsequent requests. -/
theorem c6_counterexample :
    (CommuteEnd.get_data envC6a sOld).result = Except.error "HTTPError 401" ∧
    (CommuteEnd.get_data envC6a sOld).state.token = some "oldtok" ∧
    envC6a.loginResult = Except.ok "newtok" ∧
    envC6b.loginResult = Except.error 500 ∧
    (CommuteEnd.get_data envC6b (CommuteEnd.get_data envC6a sOld).state).result
      = Except.ok [7] :=
  ⟨by decide, by decide, rfl, rfl, by decide⟩

/-- Claim C6 (amended): the bearer token is created by a login on the first
authenticated call (when none is stored); if that login fails, the call
fails with the login error, the state is unchanged (so no token is stored)
and login is not retried within the call; once a token is stored the
collector never invalidates or replaces it — any call, including one that
observes a 401, returns with the state unchanged, and subsequent calls
reuse the same token without re-login. -/
theorem c6_token_lifecycle {α : Type} (env : CommuteEnd.Env α)
    (s : CommuteEnd.CollectorState) (tok : String) (st : Nat) :
    (CommuteEnd.tokenFalsy s.token = true → env.loginResult = Except.ok tok →
      (CommuteEnd.get_data env s).state.token = some tok) ∧
    (CommuteEnd.tokenFalsy s.token = true → env.loginResult = Except.error st →
      (CommuteEnd.get_data env s).result
        = Except.error ("HTTPError " ++ toString st) ∧
      (CommuteEnd.get_data env s).state = s) ∧
    (CommuteEnd.tokenFalsy s.token = false →
      (CommuteEnd.get_data env s).state = s) := by
  refine ⟨?_, ?_, ?_⟩
  · intro ht hl
    unfold CommuteEnd.get_data
    rw [ht]
    unfold CommuteEnd.login
    rw [hl]
    simp [get_data_authed_state]
  · intro ht hl
    unfold CommuteEnd.get_data
    rw [ht]
    unfold CommuteEnd.login
    rw [hl]
    simp
  · intro ht
    unfold CommuteEnd.get_data
    rw [ht]
    simp [get_data_authed_state]

/-- Witness for C6 (amended): a fresh collector logging in against `envC1`,
and a token-holding collector calling against `envC6b`. -/
theorem c6_witness :
    (CommuteEnd.get_data envC1 sFresh).state.token = some "tok" ∧
    (CommuteEnd.get_data envC6b sOld).state = sOld := by
  have h1 := (c6_token_lifecycle envC1 sFresh "tok" 0).1 (by decide) rfl
  have h2 := (c6_token_lifecycle envC6b sOld "x" 0).2.2 (by decide)
  exact ⟨h1, h2⟩

/-- Claim C7: the scheduling loop of src/checkout.py processes every cycle
outcome: each iteration — succeeded or failed — is followed by the fixed
300-second sleep and the loop moves on to the next iteration (the count of
sleeps equals the count of outcomes, so no failure stops the loop early),
and every error escaping `run` is caught and logged at the loop boundary;
no outcome can terminate the loop, since `loopIteration` is total and the
`except` clause swallows every failure. -/
theorem c7_scheduler_never_stops (outcomes : List (Except String Unit)) :
    (Checkout.mainLoop outcomes).count (Checkout.SchedEvent.sleep 300)
      = outcomes.length ∧
    (Checkout.mainLoop outcomes).count Checkout.SchedEvent.cycleRan
      = outcomes.length ∧
    ∀ e, Except.error e ∈ outcomes →
      Checkout.SchedEvent.errorLogged ("Error in main loop: " ++ e)
        ∈ Checkout.mainLoop outcomes := by
  induction outcomes with
  | nil => exact ⟨rfl, rfl, by intro e he; cases he⟩
  | cons o rest ih =>
    refine ⟨?_, ?_, ?_⟩
    · cases o <;>
        simp [Checkout.mainLoop, Checkout.loopIteration, List.count_append,
          List.count_cons, ih.1]
    · cases o <;>
        simp [Checkout.mainLoop, Checkout.loopIteration, List.count_append,
          List.count_cons, ih.2.1]
    · intro e he
      rcases List.mem_cons.1 he with h | h
      · rw [← h]
        simp [Checkout.mainLoop, Checkout.loopIteration]
      · exact List.mem_append_right _ (ih.2.2 e h)

/-- Witness for C7 at a concrete two-cycle outcome prefix with one
failure. -/
theorem c7_witness :
    (Checkout.mainLoop [Except.error "boom", Except.ok ()]).count
        (Checkout.SchedEvent.sleep 300) = 2 ∧
    Checkout.SchedEvent.errorLogged ("Error in main loop: " ++ "boom")
      ∈ Checkout.mainLoop [Except.error "boom", Except.ok ()] := by
  have h := c7_scheduler_never_stops [Except.error "boom", Except.ok ()]
  exact ⟨h.1, h.2.2 "boom" (by decide)⟩

/-- Claim C8: when a non-first page's fetch fails terminally,
`get_page_data` swallows the failure: it logs the drop as an error event
naming the page and returns an empty page, and the surrounding collection
still succeeds — its result is the merge of all pages' (possibly empty)
blocks, and the drop event appears in the collection's observable logs. -/
theorem c8_dropped_page_logged {α : Type} (env : CommuteEnd.Env α)
    (s : CommuteEnd.CollectorState) (p : Nat) (e : String)
    (content : List α) (totalPages : Nat)
    (hpage : env.pageResult p = Except.error e)
    (hfirst : env.firstPage = Except.ok (content, totalPages))
    (hN : 1 < totalPages)
    (htok : CommuteEnd.tokenFalsy s.token = false)
    (hp : p ∈ env.completionOrder) :
    CommuteEnd.get_page_data env p
      = ([], [CommuteEnd.LogEvent.errorLog
          ("Error fetching page " ++ toString p ++ ": " ++ e)]) ∧
    (CommuteEnd.get_data env s).result
      = Except.ok (content ++
          (env.completionOrder.map
            (fun q => (CommuteEnd.get_page_data env q).1)).flatten) ∧
    CommuteEnd.LogEvent.errorLog ("Error fetching page " ++ toString p ++ ": " ++ e)
      ∈ (CommuteEnd.get_data env s).logs := by
  have h1 : CommuteEnd.get_page_data env p
      = ([], [CommuteEnd.LogEvent.errorLog
          ("Error fetching page " ++ toString p ++ ": " ++ e)]) := by
    unfold CommuteEnd.get_page_data
    rw [hpage]
  have hgd : CommuteEnd.get_data env s = CommuteEnd.get_data_authed env s := by
    unfold CommuteEnd.get_data
    rw [htok]
    simp
  refine ⟨h1, ?_, ?_⟩
  · rw [hgd]
    unfold CommuteEnd.get_data_authed
    rw [hfirst]
    simp only [hN, if_true, List.map_map]
    rfl
  · rw [hgd]
    unfold CommuteEnd.get_data_authed
    rw [hfirst]
    simp only [hN, if_true, List.map_map]
    refine List.mem_flatten.2 ⟨(CommuteEnd.get_page_data env p).2, ?_, ?_⟩
    · exact List.mem_map_of_mem _ hp
    · rw [h1]
      exact List.mem_singleton.2 rfl

/-- Witness for C8 at the concrete environment whose page 2 fails while
page 3 succeeds. -/
theorem c8_witness :
    CommuteEnd.get_page_data envC8 2
      = ([], [CommuteEnd.LogEvent.errorLog
          ("Error fetching page " ++ toString 2 ++ ": " ++ "boom")]) ∧
    (CommuteEnd.get_data envC8 sTok).result
      = Except.ok ([10] ++
          (envC8.completionOrder.map
            (fun q => (CommuteEnd.get_page_data envC8 q).1)).flatten) ∧
    CommuteEnd.LogEvent.errorLog ("Error fetching page " ++ toString 2 ++ ": " ++ "boom")
      ∈ (CommuteEnd.get_data envC8 sTok).logs :=
  c8_dropped_page_logged envC8 sTok 2 "boom" [10] 3 rfl rfl (by decide)
    (by decide) (by decide)

/-- A clear-then-write replace is insensitive to a previous replace with
the same data: outside the written rectangle the cleared range reads '',
and everything else falls through to the sheet beneath both replaces. -/
theorem replace_clear_write_idem (s : Sheet) (rmin rmax cmin cmax r0 c0 : Nat)
    (data : List (List String)) :
    sheetWrite (batch_clear
        (sheetWrite (batch_clear s rmin rmax cmin cmax) r0 c0 data)
        rmin rmax cmin cmax) r0 c0 data
      = sheetWrite (batch_clear s rmin rmax cmin cmax) r0 c0 data := by
  funext r c
  by_cases hw : r0 ≤ r ∧ r - r0 < data.length ∧ c0 ≤ c ∧
      c - c0 < (data.getD (r - r0) []).length
  · simp only [sheetWrite, if_pos hw]
  · by_cases hc : rmin ≤ r ∧ r ≤ rmax ∧ cmin ≤ c ∧ c ≤ cmax
    · simp only [sheetWrite, batch_clear, if_neg hw, if_pos hc]
    · simp only [sheetWrite, batch_clear, if_neg hw, if_neg hc]

/-- Claim C9: for a non-empty row sequence, performing the replace twice in
succession leaves the target worksheet in the same state as performing it
once, in both variants. -/
theorem c9_sync_idempotent (s : Sheet) (data : List (List String))
    (h : data ≠ []) :
    (CommuteEnd.update_spreadsheet
        (CommuteEnd.update_spreadsheet s data).1 data).1
      = (CommuteEnd.update_spreadsheet s data).1 ∧
    (Checkout.update_spreadsheet
        (Checkout.update_spreadsheet s data).1 data).1
      = (Checkout.update_spreadsheet s data).1 := by
  constructor
  · simp only [CommuteEnd.update_spreadsheet, if_neg h]
    exact replace_clear_write_idem s 2 1000 1 8 2 1 data
  · simp only [Checkout.update_spreadsheet, if_neg h]
    exact replace_clear_write_idem s 2 1000 1 7 2 1 data

/-- Witness for C9 at a concrete sheet and a one-row data set. -/
theorem c9_witness :
    (CommuteEnd.update_spreadsheet
        (CommuteEnd.update_spreadsheet sheetX [["a"]]).1 [["a"]]).1
      = (CommuteEnd.update_spreadsheet sheetX [["a"]]).1 ∧
    (Checkout.update_spreadsheet
        (Checkout.update_spreadsheet sheetX [["a"]]).1 [["a"]]).1
      = (Checkout.update_spreadsheet sheetX [["a"]]).1 :=
  c9_sync_idempotent sheetX [["a"]] (by decide)

/-- A record that `processOne` turns into a row passed the `IB` filter. -/
theorem processOne_some_isIB (i : RawRecord) (row : List JVal)
    (h : Checkout.processOne i = Except.ok (some row)) :
    Checkout.isIB i = true := by
  unfold Checkout.processOne at h
  rcases hwp : pyIndex i "workPart" with e | v <;> rw [hwp] at h
  · simp at h
  · have h2 : (if v = JVal.jstr "IB" then Except.map some (Checkout.buildRow i)
        else Except.ok none) = Except.ok (some row) := h
    by_cases hv : v = JVal.jstr "IB"
    · simp [Checkout.isIB, hwp, hv]
    · rw [if_neg hv] at h2
      simp at h2

/-- A record that `processOne` skips failed the `IB` filter. -/
theorem processOne_none_isIB (i : RawRecord)
    (h : Checkout.processOne i = Except.ok none) :
    Checkout.isIB i = false := by
  unfold Checkout.processOne at h
  rcases hwp : pyIndex i "workPart" with e | v <;> rw [hwp] at h
  · simp at h
  · have h2 : (if v = JVal.jstr "IB" then Except.map some (Checkout.buildRow i)
        else Except.ok none) = Except.ok none := h
    by_cases hv : v = JVal.jstr "IB"
    · rw [if_pos hv] at h2
      rcases hb : Checkout.buildRow i with e2 | row2 <;> rw [hb] at h2 <;>
        simp [Except.map] at h2
    · simp [Checkout.isIB, hwp, hv]

/-- The loop of the checkout `process_data` produces, in input order, one
row per record passing the `IB` filter: the j-th collected row is the row
`processOne` builds from the j-th matching record. -/
theorem collectRows_spec (resp : List RawRecord) (l : List (List JVal))
    (h : Checkout.collectRows resp = Except.ok l) :
    l.length = (resp.filter Checkout.isIB).length ∧
    ∀ j, j < l.length →
      ((resp.filter Checkout.isIB)[j]?).map Checkout.processOne
        = (l[j]?).map (fun row => Except.ok (some row)) := by
  induction resp generalizing l with
  | nil =>
    simp only [Checkout.collectRows] at h
    injection h with h
    subst h
    exact ⟨rfl, by intro j hj; cases hj⟩
  | cons i rest ih =>
    simp only [Checkout.collectRows] at h
    rcases hro : Checkout.processOne i with e | r <;> rw [hro] at h
    · cases h
    · rcases hrest : Checkout.collectRows rest with e2 | tail <;> rw [hrest] at h
      · cases h
      · obtain ⟨ihlen, ihspec⟩ := ih tail hrest
        cases r with
        | some row =>
          injection h with h
          subst h
          have hib : Checkout.isIB i = true := processOne_some_isIB i row hro
          constructor
          · simp [List.filter_cons, hib, ihlen]
          · intro j hj
            cases j with
            | zero => simp [List.filter_cons, hib, hro]
            | succ k =>
              have hk : k < tail.length := by simpa using hj
              have hks := ihspec k hk
              simpa [List.filter_cons, hib] using hks
        | none =>
          injection h with h
          subst h
          have hib : Checkout.isIB i = false := processOne_none_isIB i hro
          constructor
          · simp [List.filter_cons, hib, ihlen]
          · intro j hj
            have hjs := ihspec j hj
            simpa [List.filter_cons, hib] using hjs

/-- Claim C10: the checkout `process_data` returns the rows of the matching
(`workPart == 'IB'`) records in reverse order of their appearance: when it
succeeds with n rows, the j-th output row (0-indexed) is the row built from
the (n - 1 - j)-th matching input record. -/
theorem c10_rows_reversed (resp : List RawRecord) (rows : List (List JVal))
    (h : Checkout.process_data resp = Except.ok rows) :
    rows.length = (resp.filter Checkout.isIB).length ∧
    ∀ j, j < rows.length →
      ((resp.filter Checkout.isIB)[rows.length - 1 - j]?).map Checkout.processOne
        = (rows[j]?).map (fun row => Except.ok (some row)) := by
  unfold Checkout.process_data at h
  rcases hc : Checkout.collectRows resp with e | l <;> rw [hc] at h
  · simp [Except.map] at h
  · simp only [Except.map] at h
    injection h with h
    subst h
    obtain ⟨hlen, hspec⟩ := collectRows_spec resp l hc
    have hlr : l.reverse.length = l.length := List.length_reverse l
    refine ⟨by rw [hlr, hlen], ?_⟩
    intro j hj
    rw [hlr] at hj ⊢
    have hidx : l.length - 1 - j < l.length := by omega
    have h2 := hspec (l.length - 1 - j) hidx
    rw [List.getElem?_reverse hj]
    exact h2

/-- Witness for C10 at the concrete response of two `IB` records around an
`OB` record: the first output row comes from the last matching record. -/
theorem c10_witness :
    rowsC10.length = (respC10.filter Checkout.isIB).length ∧
    ((respC10.filter Checkout.isIB)[rowsC10.length - 1 - 0]?).map Checkout.processOne
      = (rowsC10[0]?).map (fun row => Except.ok (some row)) := by
  have h := c10_rows_reversed respC10 rowsC10 (by decide)
  exact ⟨h.1, h.2 0 (by decide)⟩
